import Mathlib

/-!
Verification of the Finnhub ETL job (src/Amazon/etl/finnhub_etl_elasticsearch.py)
against its specification.

The script is a linear batch pipeline: resolve an Elasticsearch connection,
ensure the index mapping, fetch daily candles per symbol from the Finnhub
HTTP API, derive columns with pandas, drop incomplete rows, and bulk-index
the resulting documents.  The embedding below models the pure data path:
numbers are exact rationals (JSON numbers; volumes are integral counts),
pandas NaN cells are `Option.none`, and the JSON documents produced by
`generate_actions` are association lists of field name to JSON value, so
that an omitted key and a key bound to `null` stay distinguishable.
-/

/-- JSON scalar values appearing in an index document source. -/
inductive JVal where
  | null : JVal
  | str : String → JVal
  | num : Rat → JVal
  | int : Int → JVal
deriving DecidableEq, Repr

/-- A document source: field names bound to JSON values, in insertion order. -/
abbrev Source := List (String × JVal)

/-! ### Calendar arithmetic

`pd.to_datetime` with unit seconds yields a UTC timestamp; the script reads
`.dt.hour`, `.dt.month`, `.dt.date` and `.isoformat()` from it.  We embed the
timestamp as its epoch-second count (a natural number: every fetched epoch is
at or after 1714521600) and compute the civil date with the standard
days-to-civil algorithm, valid for all days at or after 1970-01-01. -/

/-- Civil date (year, month, day) of a day count since 1970-01-01 (UTC). -/
def civilFromDays (days : Nat) : Nat × Nat × Nat :=
  let z := days + 719468
  let era := z / 146097
  let doe := z % 146097
  let yoe := (doe - doe / 1460 + doe / 36524 - doe / 146096) / 365
  let y := yoe + era * 400
  let doy := doe - (365 * yoe + yoe / 4 - yoe / 100)
  let mp := (5 * doy + 2) / 153
  let d := doy - (153 * mp + 2) / 5 + 1
  let m := if mp < 10 then mp + 3 else mp - 9
  (if m ≤ 2 then y + 1 else y, m, d)

/-- Month (1..12) of an epoch-second timestamp, as in `dt.month`. -/
def monthOfEpoch (t : Nat) : Nat :=
  (civilFromDays (t / 86400)).2.1

/-- Hour of day (0..23) of an epoch-second timestamp, as in `dt.hour`. -/
def hourOfEpoch (t : Nat) : Nat :=
  t % 86400 / 3600

/-- Left-pad a numeral to two digits, as Python date/time formatting does. -/
def pad2 (n : Nat) : String :=
  if n < 10 then "0" ++ toString n else toString n

/-- The date string `str(dt.date())`, e.g. `2024-05-01`. -/
def dateStr (t : Nat) : String :=
  let c := civilFromDays (t / 86400)
  toString c.1 ++ "-" ++ pad2 c.2.1 ++ "-" ++ pad2 c.2.2

/-- The timestamp string `dt.isoformat()`, e.g. `2024-05-01T00:00:00`
(fetched timestamps are whole seconds, so no fractional part is printed). -/
def isoStr (t : Nat) : String :=
  dateStr t ++ "T" ++ pad2 (hourOfEpoch t) ++ ":" ++ pad2 (t % 3600 / 60)
    ++ ":" ++ pad2 (t % 60)

/-! ### Data model -/

/-- One candle row of the pandas frame.  A field holds `none` where the
pandas cell is NaN/NaT (missing). `open` is written `«open»` because plain
`open` is reserved in Lean. -/
structure Row where
  timestamp : Option Nat
  symbol : Option String
  «open» : Option Rat
  high : Option Rat
  low : Option Rat
  close : Option Rat
  volume : Option Int
  price_change : Option Rat
  volume_change : Option Rat
  hour : Option String
  month : Option Int
  trip_date : Option String
  price_per_volume : Option Rat
  sentiment : Option String
  season : Option String
deriving DecidableEq, Repr, Inhabited

/-- One symbol response of the candle endpoint: status `s` and the parallel
arrays `t`, `o`, `h`, `l`, `c`, `v` (volumes are integral in the API). -/
structure CandleResponse where
  s : String
  t : List Nat
  o : List Rat
  h : List Rat
  l : List Rat
  c : List Rat
  v : List Int
deriving Repr

/-! ### Transformer: derived columns (script lines 169-175, 215-223) -/

/-- `get_season` of the script, line 215: month buckets to a season label. -/
def get_season (month : Int) : String :=
  if month ∈ ([12, 1, 2] : List Int) then "Winter"
  else if month ∈ ([3, 4, 5] : List Int) then "Spring"
  else if month ∈ ([6, 7, 8] : List Int) then "Summer"
  else if month ∈ ([9, 10, 11] : List Int) then "Fall"
  else "Unknown"

/-- `Series.pct_change` tail: each value relative to its predecessor, the
running predecessor being `prev`. -/
def pctChangeFrom (prev : Int) : List Int → List (Option Rat)
  | [] => []
  | v :: rest => some (((v : Rat) - (prev : Rat)) / (prev : Rat)) :: pctChangeFrom v rest

/-- The `pct_change` of the volume column (line 170): the first entry is NaN
(`none`); each later entry is `(v - prev) / prev`.  (pandas computes this in
float arithmetic, where a zero predecessor yields an infinity; the exact
rational embedding uses the same `(v - prev) / prev` formula, with the
division-by-zero convention of `Rat`.  Fetched volumes are positive counts.) -/
def pctChange : List Int → List (Option Rat)
  | [] => []
  | v :: rest => none :: pctChangeFrom v rest

/-- The close column divided by the volume column with zeros replaced by NaN
(line 174): a zero volume is replaced by NaN before the division, so the
quotient is missing exactly when the volume is zero. -/
def pricePerVolume (close : Rat) (volume : Int) : Option Rat :=
  if volume = 0 then none else some (close / (volume : Rat))

/-- The season column: `get_season` applied to the month column (line 222).
A NaN month is
not a member of any bucket list, so `get_season` returns `Unknown` for it. -/
def addSeason (r : Row) : Row :=
  { r with season := some ((r.month.map get_season).getD "Unknown") }

/-- The retention test of `df.dropna` with subset timestamp, symbol, close,
and volume (line 223): all four subset cells must be present. -/
def keepRow (r : Row) : Bool :=
  r.timestamp.isSome && r.symbol.isSome && r.close.isSome && r.volume.isSome

/-- `df.dropna(subset=[...])` (line 223): keep exactly the rows passing
`keepRow`. -/
def dropnaRows (rows : List Row) : List Row :=
  rows.filter keepRow

/-- The whole-frame transform after fetching: add the season column, then
drop rows with a missing required cell (lines 222-223). -/
def transformRows (rows : List Row) : List Row :=
  dropnaRows (rows.map addSeason)

/-! ### Data fetcher (script lines 151-183) -/

/-- Row `i` of the per-symbol frame `temp_df` built on lines 160-175: the raw
columns come from the parallel response arrays, the derived columns from the
formulas of lines 169-175.  `season` is only added later, on the concatenated
frame.  (`getD` defaults are never reached: the caller checks that the arrays
share the length of `t`.) -/
def mkFetchedRow (sym : String) (d : CandleResponse) (i : Nat) : Row :=
  { timestamp := some (d.t.getD i 0)
    symbol := some sym
    «open» := some (d.o.getD i 0)
    high := some (d.h.getD i 0)
    low := some (d.l.getD i 0)
    close := some (d.c.getD i 0)
    volume := some (d.v.getD i 0)
    price_change := some (d.c.getD i 0 - d.o.getD i 0)
    volume_change := (pctChange d.v).getD i none
    hour := some (toString (hourOfEpoch (d.t.getD i 0)))
    month := some ((monthOfEpoch (d.t.getD i 0) : Nat) : Int)
    trip_date := some (dateStr (d.t.getD i 0))
    price_per_volume := pricePerVolume (d.c.getD i 0) (d.v.getD i 0)
    sentiment := some "Neutral"
    season := none }

/-- The per-symbol frame: one row per time-series point. -/
def deriveRows (sym : String) (d : CandleResponse) : List Row :=
  (List.range d.t.length).map (mkFetchedRow sym d)

/-- One iteration of the fetch loop (lines 151-183) for one symbol.  `api`
maps a symbol to its parsed JSON response, `none` standing for a request or
parse exception.  The result is the frame appended to `df_list`: `none` when
nothing is appended (exception, non-ok status, empty `t`, or mismatched
array lengths, which make the `pd.DataFrame` constructor raise into the
`except` that skips the symbol). -/
def processSymbol (api : String → Option CandleResponse) (sym : String) :
    Option (List Row) :=
  match api sym with
  | none => none
  | some d =>
    if d.s = "ok" ∧ d.t ≠ [] then
      if d.o.length = d.t.length ∧ d.h.length = d.t.length ∧
          d.l.length = d.t.length ∧ d.c.length = d.t.length ∧
          d.v.length = d.t.length then
        some (deriveRows sym d)
      else none
    else none

/-- The hardcoded symbol list (line 147). -/
def symbols : List String := ["AAPL", "TSLA", "MSFT", "GOOGL", "AMZN"]

/-- `df_list` after the fetch loop: one frame per successfully fetched
symbol, in symbol order. -/
def fetchFrames (api : String → Option CandleResponse) : List (List Row) :=
  symbols.filterMap (processSymbol api)

/-! ### Bulk loader: document generation (script lines 229-265) -/

/-- An optional document field: present with its value, or absent. -/
def optField (name : String) (v : Option JVal) : Source :=
  match v with
  | some j => [(name, j)]
  | none => []

/-- The `_source` dictionary built for one row by `generate_actions`
(lines 232-260): eight mandatory keys in insertion order, then the optional
keys, each added only when the column exists and the cell is not NaN.
`str` of a NaN cell yields the string `nan`, hence the `symbol` default. -/
def mkSource (r : Row) : Source :=
  [("@timestamp", match r.timestamp with
      | some t => JVal.str (isoStr t)
      | none => JVal.null),
   ("symbol", JVal.str (r.symbol.getD "nan")),
   ("close", match r.close with
      | some c => JVal.num c
      | none => JVal.null),
   ("volume", match r.volume with
      | some v => JVal.int v
      | none => JVal.null),
   ("hour", JVal.str (r.hour.getD "0")),
   ("month", match r.month with
      | some m => JVal.int m
      | none => JVal.null),
   ("season", JVal.str (r.season.getD "Unknown")),
   ("sentiment", JVal.str (r.sentiment.getD "Neutral"))]
  ++ optField "open" (r.«open».map JVal.num)
  ++ optField "high" (r.high.map JVal.num)
  ++ optField "low" (r.low.map JVal.num)
  ++ optField "price_change" (r.price_change.map JVal.num)
  ++ optField "volume_change" (r.volume_change.map JVal.num)
  ++ optField "price_per_volume" (r.price_per_volume.map JVal.num)
  ++ optField "trip_date" (r.trip_date.map JVal.str)

/-- `generate_actions(df)` (line 229): one document source per row.  (The
per-row `except` never fires in this pure model, so no row is skipped.) -/
def generateActions (rows : List Row) : List Source :=
  rows.map mkSource

/-! ### Whole pipeline -/

/-- The document list produced from the fetch results: `none` when no symbol
succeeded (the script then synthesizes `np.random` sample rows, which we do
not model); otherwise the frames are concatenated, transformed, and turned
into documents. -/
def pipelineDocs (api : String → Option CandleResponse) : Option (List Source) :=
  let frames := fetchFrames api
  if frames.isEmpty then none
  else some (generateActions (transformRows frames.flatten))

/-- The run gated by connection resolution (lines 57-108): `conn` lists the
health-check outcome of each candidate configuration in order.  When no
candidate is usable the process exits with status 1 before any fetch,
transform, or load step; otherwise the data path runs. -/
def runJob (conn : List Bool) (api : String → Option CandleResponse) :
    Except Nat (Option (List Source)) :=
  if conn.any (fun b => b) then Except.ok (pipelineDocs api) else Except.error 1

/-! ### Bulk submission fallback (script lines 267-293) -/

/-- The result of the guarded bulk submission. -/
inductive LoadResult where
  | ok : Nat → LoadResult
  | fallbackOk : LoadResult
  | failed : String → String → LoadResult
deriving DecidableEq, Repr

/-- `sample_df` of the fallback branch (lines 278-287): a single synthetic
smoke-test row.  `now` is the epoch second of `datetime.now()`. -/
def fallbackRows (now : Nat) : List Row :=
  [{ timestamp := some now
     symbol := some "AAPL"
     «open» := none
     high := none
     low := none
     close := some 150.0
     volume := some 1000000
     price_change := none
     volume_change := none
     hour := some "14"
     month := some ((monthOfEpoch now : Nat) : Int)
     trip_date := none
     price_per_volume := none
     sentiment := some "Neutral"
     season := some "Fall" }]

/-- The try/except around `helpers.bulk` (lines 267-293): on an exception,
one fallback bulk of the synthetic sample documents is attempted; a second
exception is only logged. -/
def loadWithFallback (bulk : List Source → Except String Nat) (now : Nat)
    (docs : List Source) : LoadResult :=
  match bulk docs with
  | Except.ok n => LoadResult.ok n
  | Except.error e1 =>
    match bulk (generateActions (fallbackRows now)) with
    | Except.ok _ => LoadResult.fallbackOk
    | Except.error e2 => LoadResult.failed e1 e2

/-- The successive argument lists passed to `helpers.bulk` during
`loadWithFallback`, in order. -/
def bulkAttempts (bulk : List Source → Except String Nat) (now : Nat)
    (docs : List Source) : List (List Source) :=
  match bulk docs with
  | Except.ok _ => [docs]
  | Except.error _ => [docs, generateActions (fallbackRows now)]

/-! ### Concrete inputs used by the end-to-end and witness theorems -/

/-- The mocked candle response of the end-to-end scenario. -/
def c1Response : CandleResponse :=
  { s := "ok", t := [1714521600], o := [100], h := [110], l := [90],
    c := [105], v := [1000] }

/-- The mocked API: the scenario response for AAPL, no data for the rest. -/
def mockApi (sym : String) : Option CandleResponse :=
  if sym = "AAPL" then some c1Response
  else some { s := "no_data", t := [], o := [], h := [], l := [], c := [], v := [] }

/-- A two-point response with volumes 100 then 150. -/
def c4Response : CandleResponse :=
  { s := "ok", t := [0, 86400], o := [1, 1], h := [1, 1], l := [1, 1],
    c := [1, 1], v := [100, 150] }

/-- A two-point well-formed response. -/
def c9Response : CandleResponse :=
  { s := "ok", t := [10, 20], o := [1, 2], h := [3, 4], l := [5, 6],
    c := [7, 8], v := [9, 10] }

/-- The single row the mocked scenario derives for AAPL. -/
def c1Row : Row :=
  { timestamp := some 1714521600, symbol := some "AAPL", «open» := some 100,
    high := some 110, low := some 90, close := some 105, volume := some 1000,
    price_change := some 5, volume_change := none, hour := some "0",
    month := some 5, trip_date := some "2024-05-01",
    price_per_volume := some (21 / 200), sentiment := some "Neutral",
    season := none }

/-- A row whose volume cell is missing. -/
def rNoVolume : Row :=
  { timestamp := some 0, symbol := some "AAPL", «open» := none, high := none,
    low := none, close := some 1, volume := none, price_change := none,
    volume_change := none, hour := none, month := none, trip_date := none,
    price_per_volume := none, sentiment := none, season := none }

/-! ### Theorems -/

/-- C3: the season derivation is a pure function of the month number:
Winter for 12, 1, 2; Spring for 3, 4, 5; Summer for 6, 7, 8; Fall for
9, 10, 11; Unknown for every other input. -/
theorem get_season_buckets (m : Int) :
    ((m = 12 ∨ m = 1 ∨ m = 2) → get_season m = "Winter") ∧
    ((m = 3 ∨ m = 4 ∨ m = 5) → get_season m = "Spring") ∧
    ((m = 6 ∨ m = 7 ∨ m = 8) → get_season m = "Summer") ∧
    ((m = 9 ∨ m = 10 ∨ m = 11) → get_season m = "Fall") ∧
    ((m < 1 ∨ 12 < m) → get_season m = "Unknown") := by
  refine ⟨fun h => ?_, fun h => ?_, fun h => ?_, fun h => ?_, fun h => ?_⟩
  · rcases h with rfl | rfl | rfl <;> decide
  · rcases h with rfl | rfl | rfl <;> decide
  · rcases h with rfl | rfl | rfl <;> decide
  · rcases h with rfl | rfl | rfl <;> decide
  · simp only [get_season, List.mem_cons, List.not_mem_nil, or_false]
    split_ifs with h1 h2 h3 h4
    · exfalso; rcases h with h | h <;> rcases h1 with rfl | rfl | rfl <;> omega
    · exfalso; rcases h with h | h <;> rcases h2 with rfl | rfl | rfl <;> omega
    · exfalso; rcases h with h | h <;> rcases h3 with rfl | rfl | rfl <;> omega
    · exfalso; rcases h with h | h <;> rcases h4 with rfl | rfl | rfl <;> omega
    · rfl

/-- Witness for C3 at the inputs named by the spec. -/
theorem get_season_buckets_witness :
    get_season 1 = "Winter" ∧ get_season 4 = "Spring" ∧
    get_season 7 = "Summer" ∧ get_season 10 = "Fall" ∧
    get_season 13 = "Unknown" :=
  ⟨(get_season_buckets 1).1 (Or.inr (Or.inl rfl)),
   (get_season_buckets 4).2.1 (Or.inr (Or.inl rfl)),
   (get_season_buckets 7).2.2.1 (Or.inr (Or.inl rfl)),
   (get_season_buckets 10).2.2.2.1 (Or.inr (Or.inl rfl)),
   (get_season_buckets 13).2.2.2.2 (Or.inr (by norm_num))⟩

/-- C5: price_per_volume is close divided by volume for a non-zero volume
and missing (no division error) for a zero volume. -/
theorem pricePerVolume_spec (c : Rat) (v : Int) :
    (v ≠ 0 → pricePerVolume c v = some (c / (v : Rat))) ∧
    pricePerVolume c 0 = none := by
  constructor
  · intro hv
    simp [pricePerVolume, hv]
  · simp [pricePerVolume]

/-- Witness for C5: close 150 and volume 1000000 give 0.00015; volume 0
gives a missing value. -/
theorem pricePerVolume_spec_witness :
    pricePerVolume 150 1000000 = some 0.00015 ∧ pricePerVolume 150 0 = none := by
  have h := (pricePerVolume_spec 150 1000000).1 (by decide)
  have hval : (150 : Rat) / ((1000000 : Int) : Rat) = 0.00015 := by norm_num
  exact ⟨by rw [h, hval], (pricePerVolume_spec 150 0).2⟩

/-- C7: when every connection candidate fails its health check, the run
terminates with exit status 1 and produces no documents (the data path
never executes). -/
theorem conn_failure_exits (conn : List Bool)
    (api : String → Option CandleResponse) (h : ∀ b ∈ conn, b = false) :
    runJob conn api = Except.error 1 := by
  have hfa : conn.any (fun b => b) = false :=
    List.any_eq_false.mpr (fun b hb => by simp [h b hb])
  simp [runJob, hfa]

/-- Witness for C7: two failing candidates and an unreachable API. -/
theorem conn_failure_exits_witness :
    runJob [false, false] (fun _ => none) = Except.error 1 :=
  conn_failure_exits [false, false] (fun _ => none) (by decide)

/-- C8: when the bulk submission raises, exactly one fallback bulk attempt
is made, it carries exactly one synthetic smoke-test document, and a second
failure yields the logged failure result with no further attempt. -/
theorem bulk_fallback_once (bulk : List Source → Except String Nat)
    (now : Nat) (docs : List Source) (e : String)
    (h : bulk docs = Except.error e) :
    bulkAttempts bulk now docs = [docs, generateActions (fallbackRows now)] ∧
    (generateActions (fallbackRows now)).length = 1 ∧
    (∀ e2, bulk (generateActions (fallbackRows now)) = Except.error e2 →
      loadWithFallback bulk now docs = LoadResult.failed e e2) := by
  refine ⟨?_, rfl, ?_⟩
  · simp [bulkAttempts, h]
  · intro e2 h2
    simp [loadWithFallback, h, h2]

/-- Witness for C8: a bulk stub that always raises. -/
theorem bulk_fallback_once_witness :
    bulkAttempts (fun _ => Except.error "boom") 0 [] =
      [[], generateActions (fallbackRows 0)] ∧
    (generateActions (fallbackRows 0)).length = 1 ∧
    (∀ e2, (fun _ => (Except.error "boom" : Except String Nat))
        (generateActions (fallbackRows 0)) = Except.error e2 →
      loadWithFallback (fun _ => Except.error "boom") 0 [] =
        LoadResult.failed "boom" e2) :=
  bulk_fallback_once (fun _ => Except.error "boom") 0 [] "boom" rfl

/-- C9: a symbol whose fetch succeeds (status ok, non-empty time series,
well-formed parallel arrays) contributes exactly one row per timestamp
point. -/
theorem fetch_rows_count (api : String → Option CandleResponse)
    (sym : String) (d : CandleResponse) (h1 : api sym = some d)
    (h2 : d.s = "ok") (h3 : d.t ≠ [])
    (ho : d.o.length = d.t.length) (hh : d.h.length = d.t.length)
    (hl : d.l.length = d.t.length) (hc : d.c.length = d.t.length)
    (hv : d.v.length = d.t.length) :
    processSymbol api sym = some (deriveRows sym d) ∧
    (deriveRows sym d).length = d.t.length := by
  constructor
  · simp [processSymbol, h1, h2, h3, ho, hh, hl, hc, hv]
  · simp [deriveRows]

/-- Witness for C9: a two-point response yields two rows. -/
theorem fetch_rows_count_witness :
    processSymbol (fun _ => some c9Response) "AAPL" =
      some (deriveRows "AAPL" c9Response) ∧
    (deriveRows "AAPL" c9Response).length = c9Response.t.length :=
  fetch_rows_count (fun _ => some c9Response) "AAPL" c9Response rfl rfl
    (by decide) rfl rfl rfl rfl rfl

/-- The field names of a document source, in order. -/
def keys (s : Source) : List String :=
  s.map Prod.fst

/-- A name is among the keys contributed by an optional field exactly when
it is the name of that field and the value is present. -/
theorem mem_keys_optField (a n : String) (v : Option JVal) :
    a ∈ keys (optField n v) ↔ a = n ∧ v.isSome = true := by
  cases v <;> simp [optField, keys]

/-- `keys` distributes over appending field lists. -/
theorem keys_append (xs ys : Source) : keys (xs ++ ys) = keys xs ++ keys ys :=
  List.map_append Prod.fst xs ys

/-- `keys` on a cons cell. -/
theorem keys_cons (k : String) (v : JVal) (s : Source) :
    keys ((k, v) :: s) = k :: keys s :=
  rfl

/-- `keys` on the empty field list. -/
theorem keys_nil : keys [] = [] :=
  rfl

/-- C2: a row with a missing timestamp, symbol, close, or volume cell is
dropped by the transform, and every final document stems from a retained
row; in particular no row lacking volume is ever submitted. -/
theorem dropna_excludes (rows : List Row) (r : Row)
    (hmiss : r.timestamp = none ∨ r.symbol = none ∨ r.close = none ∨
      r.volume = none) :
    r ∉ transformRows rows ∧
    ∀ src ∈ generateActions (transformRows rows),
      ∃ r2, r2 ∈ rows.map addSeason ∧ keepRow r2 = true ∧ src = mkSource r2 := by
  constructor
  · intro hmem
    have hk : keepRow r = true :=
      (List.mem_filter.mp
        (show r ∈ List.filter keepRow (rows.map addSeason) from hmem)).2
    rcases hmiss with h | h | h | h <;> simp [keepRow, h] at hk
  · intro src hsrc
    obtain ⟨r2, hr2, rfl⟩ := List.mem_map.mp hsrc
    have h2 := List.mem_filter.mp
      (show r2 ∈ List.filter keepRow (rows.map addSeason) from hr2)
    exact ⟨r2, h2.1, h2.2, rfl⟩

/-- Witness for C2: a row lacking its volume cell is excluded. -/
theorem dropna_excludes_witness :
    rNoVolume ∉ transformRows [rNoVolume] ∧
    ∀ src ∈ generateActions (transformRows [rNoVolume]),
      ∃ r2, r2 ∈ [rNoVolume].map addSeason ∧ keepRow r2 = true ∧
        src = mkSource r2 :=
  dropna_excludes [rNoVolume] rNoVolume (Or.inr (Or.inr (Or.inr rfl)))

/-- C6: each optional field name appears among the document keys exactly
when its source cell is present; a missing cell leaves the key out entirely
(so it is never bound to null). -/
theorem mkSource_omits_missing_optional (r : Row) :
    ("open" ∈ keys (mkSource r) ↔ r.«open».isSome = true) ∧
    ("high" ∈ keys (mkSource r) ↔ r.high.isSome = true) ∧
    ("low" ∈ keys (mkSource r) ↔ r.low.isSome = true) ∧
    ("price_change" ∈ keys (mkSource r) ↔ r.price_change.isSome = true) ∧
    ("volume_change" ∈ keys (mkSource r) ↔ r.volume_change.isSome = true) ∧
    ("price_per_volume" ∈ keys (mkSource r) ↔ r.price_per_volume.isSome = true) ∧
    ("trip_date" ∈ keys (mkSource r) ↔ r.trip_date.isSome = true) := by
  refine ⟨?_, ?_, ?_, ?_, ?_, ?_, ?_⟩ <;>
    simp [mkSource, keys_append, keys_cons, keys_nil, mem_keys_optField,
      List.mem_append, List.mem_cons, Option.isSome_map]

/-- C10: the hour, season, and sentiment fields are always present and
non-null in the document, with the constants 0, Unknown, and Neutral
substituted when the source cell is missing. -/
theorem mkSource_constant_defaults (r : Row) :
    (mkSource r).lookup "hour" = some (JVal.str (r.hour.getD "0")) ∧
    (mkSource r).lookup "season" = some (JVal.str (r.season.getD "Unknown")) ∧
    (mkSource r).lookup "sentiment" =
      some (JVal.str (r.sentiment.getD "Neutral")) := by
  refine ⟨?_, ?_, ?_⟩ <;> simp [mkSource, List.lookup]

/-- Entry `i` of a `pctChangeFrom` tail: the value relative to the running
predecessor, which is `prev` for the head and the preceding list entry
afterwards. -/
theorem pctChangeFrom_getD (l : List Int) : ∀ (prev : Int) (i : Nat),
    i < l.length →
    (pctChangeFrom prev l).getD i none =
      some ((((l.getD i 0 : Int) : Rat) -
          (((if i = 0 then prev else l.getD (i - 1) 0) : Int) : Rat)) /
        (((if i = 0 then prev else l.getD (i - 1) 0) : Int) : Rat)) := by
  induction l with
  | nil => intro prev i hi; simp at hi
  | cons v rest ih =>
    intro prev i hi
    cases i with
    | zero => simp [pctChangeFrom]
    | succ j =>
      have hj : j < rest.length := by simpa using hi
      have h := ih v j hj
      cases j with
      | zero => simpa [pctChangeFrom] using h
      | succ k => simpa [pctChangeFrom] using h

/-- The first entry of a non-empty `pct_change` column is missing. -/
theorem pctChange_getD_zero (l : List Int) (h : l ≠ []) :
    (pctChange l).getD 0 none = none := by
  cases l with
  | nil => exact absurd rfl h
  | cons v rest => rfl

/-- Every later entry of the `pct_change` column is the relative change
from the previous entry. -/
theorem pctChange_getD_succ (l : List Int) (i : Nat) (h : i + 1 < l.length) :
    (pctChange l).getD (i + 1) none =
      some ((((l.getD (i + 1) 0 : Int) : Rat) - ((l.getD i 0 : Int) : Rat)) /
        ((l.getD i 0 : Int) : Rat)) := by
  cases l with
  | nil => simp at h
  | cons v rest =>
    have hi : i < rest.length := by simpa using h
    have hfrom := pctChangeFrom_getD rest v i hi
    have hstep : (pctChange (v :: rest)).getD (i + 1) none =
        (pctChangeFrom v rest).getD i none := rfl
    rw [hstep, hfrom]
    cases i with
    | zero => simp
    | succ k => simp

/-- Row `k` of a per-symbol frame is the derived row for point `k`. -/
theorem deriveRows_getD (sym : String) (d : CandleResponse) (k : Nat)
    (hk : k < d.t.length) :
    (deriveRows sym d).getD k default = mkFetchedRow sym d k := by
  rw [deriveRows, List.getD_eq_getElem?_getD, List.getElem?_map,
    List.getElem?_range hk]
  rfl

/-- C4: within the fetched frame of one symbol ordered by time, volume_change
of the first row is missing, and volume_change of every later row is
(volume - prior volume) / prior volume of the previous row. -/
theorem volume_change_spec (sym : String) (d : CandleResponse)
    (hv : d.v.length = d.t.length) :
    (0 < d.t.length →
      ((deriveRows sym d).getD 0 default).volume_change = none) ∧
    (∀ i, i + 1 < d.t.length →
      ((deriveRows sym d).getD (i + 1) default).volume_change =
        some ((((d.v.getD (i + 1) 0 : Int) : Rat) -
            ((d.v.getD i 0 : Int) : Rat)) /
          ((d.v.getD i 0 : Int) : Rat))) := by
  constructor
  · intro h0
    rw [deriveRows_getD sym d 0 h0]
    show (pctChange d.v).getD 0 none = none
    exact pctChange_getD_zero d.v (by
      intro hnil
      rw [hnil] at hv
      simp at hv
      omega)
  · intro i hi
    rw [deriveRows_getD sym d (i + 1) hi]
    show (pctChange d.v).getD (i + 1) none = _
    exact pctChange_getD_succ d.v i (by omega)

/-- Witness for C4: volumes 100 then 150 give a missing first change and
0.5 on the second row. -/
theorem volume_change_spec_witness :
    ((deriveRows "AAPL" c4Response).getD 0 default).volume_change = none ∧
    ((deriveRows "AAPL" c4Response).getD 1 default).volume_change =
      some 0.5 := by
  have h := volume_change_spec "AAPL" c4Response rfl
  refine ⟨h.1 (by decide), ?_⟩
  have h2 := h.2 0 (by decide)
  rw [h2]
  norm_num [c4Response, List.getD]

/-- C1: on the mocked API (one May-2024 candle for AAPL, no data for the
other symbols) the pipeline produces exactly one document, with
symbol AAPL, close 105, volume 1000, price_change 5, price_per_volume
0.105, month 5, and season Spring (volume_change, having no prior row, is
omitted). -/
theorem pipeline_mocked_aapl :
    pipelineDocs mockApi =
      some [[("@timestamp", JVal.str "2024-05-01T00:00:00"),
        ("symbol", JVal.str "AAPL"),
        ("close", JVal.num 105),
        ("volume", JVal.int 1000),
        ("hour", JVal.str "0"),
        ("month", JVal.int 5),
        ("season", JVal.str "Spring"),
        ("sentiment", JVal.str "Neutral"),
        ("open", JVal.num 100),
        ("high", JVal.num 110),
        ("low", JVal.num 90),
        ("price_change", JVal.num 5),
        ("price_per_volume", JVal.num (21 / 200)),
        ("trip_date", JVal.str "2024-05-01")]] := by
  have hA : processSymbol mockApi "AAPL" = some (deriveRows "AAPL" c1Response) := rfl
  have hT : processSymbol mockApi "TSLA" = none := rfl
  have hM : processSymbol mockApi "MSFT" = none := rfl
  have hG : processSymbol mockApi "GOOGL" = none := rfl
  have hZ : processSymbol mockApi "AMZN" = none := rfl
  have hframes : fetchFrames mockApi = [deriveRows "AAPL" c1Response] := by
    simp [fetchFrames, symbols, List.filterMap_cons, hA, hT, hM, hG, hZ]
  have hone : deriveRows "AAPL" c1Response = [mkFetchedRow "AAPL" c1Response 0] := rfl
  have hrow : mkFetchedRow "AAPL" c1Response 0 = c1Row := by
    simp [mkFetchedRow, c1Row, c1Response, pctChange, pctChangeFrom, pricePerVolume,
      monthOfEpoch, hourOfEpoch, civilFromDays, dateStr, isoStr, pad2, List.getD]
    norm_num
    exact ⟨rfl, rfl⟩
  rw [pipelineDocs, hframes, hone, hrow]
  rfl
